import Mathlib

/-!
Shallow embedding of `src/crm_monitor.py` (class `PingMonitor`), covering:
the probe-output parser `parse_ping_delay`, one iteration of the probe loop
`ping_target_continuously`, the per-window classification and overall-status
computation inside `process_results`, and one iteration of
`connection_notification_loop`.

Python floats are modelled as exact rationals (ℚ); the delays and thresholds
relevant to the claims are small integers, where float and rational agree.
Strings produced by the code ("Connected", "Diconnected", "NotAvailable",
colours) are kept literally as Lean strings, typos included.
-/

namespace Crm

/-- Probe statuses produced by `ping_target_continuously`: the Python code uses
the literal strings "success", "failed", "timeout", "error"; they form a
four-value enumeration. -/
inductive PStatus where
  | success
  | failed
  | timeout
  | error
deriving DecidableEq

/-- One entry of the dict pushed to `result_queue`:
with keys name, ip, status, delay and timestamp. -/
structure Outcome where
  name : String
  ip : String
  status : PStatus
  delay : Option ℚ
  timestamp : ℚ
deriving DecidableEq

/-- The condition values assigned in `process_results`:
"Disconnected" (failure branch), "Fast", "Slow", "Dead", and
"No valid data" (rendered here as `NoData`). -/
inductive Condition where
  | Fast
  | Slow
  | Dead
  | Disconnected
  | NoData
deriving DecidableEq

/-- The per-target values computed by the classification part of
`process_results`: `condition`, `avg_delay`, the local variable `status`
(a string literal; left unassigned — `none` — in the `failed_pings >= 2`
branch, where the Python code never sets it), and `color`. -/
structure Classification where
  condition : Condition
  avg_delay : Option ℚ
  status : Option String
  color : String
deriving DecidableEq

/-- `failed_pings = sum(1 for r in recent_results if r["status"] in
["timeout", "error", "failed"])` (line 294). -/
def failed_pings (rs : List Outcome) : Nat :=
  (rs.filter (fun r =>
    r.status == PStatus.timeout || r.status == PStatus.error || r.status == PStatus.failed)).length

/-- `delays = [r["delay"] for r in recent_results if r["delay"] is not None]`
(line 301). -/
def presentDelays (rs : List Outcome) : List ℚ :=
  rs.filterMap (fun r => r.delay)

/-- Lines 294–323 of `process_results`: the classification computed from the
current window contents `recent_results`. Mirrors the Python branch structure:
`failed_pings >= 2` dominates; otherwise the mean of present delays is
thresholded (`< 200` Fast, `200 <= avg <= 1500` Slow, else Dead — note the
misspelled status string of the source "Diconnected" in the Dead branch); with no
present delay the result is "No valid data"/"NotAvailable". -/
def classify (rs : List Outcome) : Classification :=
  if failed_pings rs ≥ 2 then
    { condition := Condition.Disconnected, avg_delay := none, status := none, color := "#FF0000" }
  else
    let delays := presentDelays rs
    if delays ≠ [] then
      let avg : ℚ := delays.sum / (delays.length : ℚ)
      if avg < 200 then
        { condition := Condition.Fast, avg_delay := some avg,
          status := some "Connected", color := "#00FF00" }
      else if 200 ≤ avg ∧ avg ≤ 1500 then
        { condition := Condition.Slow, avg_delay := some avg,
          status := some "Connected", color := "#FFFF00" }
      else
        { condition := Condition.Dead, avg_delay := some avg,
          status := some "Diconnected", color := "#FF0000" }
    else
      { condition := Condition.NoData, avg_delay := none,
        status := some "NotAvailable", color := "#808080" }

/-- A sample outcome for the first configured target, used to instantiate
theorems at concrete inputs. -/
def sampleAt (st : PStatus) (d : Option ℚ) : Outcome :=
  { name := "Internet", ip := "79.127.78.196", status := st, delay := d, timestamp := 0 }

/-- C1: for every target window, if the number of outcomes with status in
\x7bfailed, timeout, error\x7d is at least 2, the computed condition is
Disconnected and is never Fast or Slow, regardless of the delays in the
window (failure dominates latency). -/
theorem C1_failure_dominates (rs : List Outcome) (h : failed_pings rs ≥ 2) :
    (classify rs).condition = Condition.Disconnected ∧
    (classify rs).condition ≠ Condition.Fast ∧
    (classify rs).condition ≠ Condition.Slow := by
  unfold classify
  rw [if_pos h]
  exact ⟨rfl, by simp, by simp⟩

/-- Witness for C1 at a concrete window with two failed outcomes and a fast
present delay. -/
theorem C1_witness :
    failed_pings [sampleAt PStatus.failed none, sampleAt PStatus.timeout none,
      sampleAt PStatus.success (some 50)] ≥ 2 ∧
    (classify [sampleAt PStatus.failed none, sampleAt PStatus.timeout none,
      sampleAt PStatus.success (some 50)]).condition = Condition.Disconnected ∧
    (classify [sampleAt PStatus.failed none, sampleAt PStatus.timeout none,
      sampleAt PStatus.success (some 50)]).condition ≠ Condition.Fast ∧
    (classify [sampleAt PStatus.failed none, sampleAt PStatus.timeout none,
      sampleAt PStatus.success (some 50)]).condition ≠ Condition.Slow :=
  ⟨by decide, C1_failure_dominates _ (by decide)⟩

/-- C2 (evaluation at the failing input): with fewer than 2 failures the
thresholds behave as claimed — the five-Success round-trip with delays
[50,60,70,80,90] classifies Fast with aggregate delay 70 and status
"Connected" — but in the Dead branch (mean > 1500) the source assigns the
misspelled status string "Diconnected" (line 314), not "Disconnected". -/
theorem C2_dead_branch_misspelled_status :
    classify [sampleAt PStatus.success (some 2000)] =
      { condition := Condition.Dead, avg_delay := some 2000,
        status := some "Diconnected", color := "#FF0000" } ∧
    classify [sampleAt PStatus.success (some 50), sampleAt PStatus.success (some 60),
      sampleAt PStatus.success (some 70), sampleAt PStatus.success (some 80),
      sampleAt PStatus.success (some 90)] =
      { condition := Condition.Fast, avg_delay := some 70,
        status := some "Connected", color := "#00FF00" } := by
  constructor
  · have h1 : failed_pings [sampleAt PStatus.success (some 2000)] = 0 := by decide
    have h2 : presentDelays [sampleAt PStatus.success (some 2000)] = [2000] := by decide
    unfold classify
    rw [h1, h2]
    norm_num
  · have h1 : failed_pings [sampleAt PStatus.success (some 50),
        sampleAt PStatus.success (some 60), sampleAt PStatus.success (some 70),
        sampleAt PStatus.success (some 80), sampleAt PStatus.success (some 90)] = 0 := by decide
    have h2 : presentDelays [sampleAt PStatus.success (some 50),
        sampleAt PStatus.success (some 60), sampleAt PStatus.success (some 70),
        sampleAt PStatus.success (some 80), sampleAt PStatus.success (some 90)] =
        [50, 60, 70, 80, 90] := by decide
    unfold classify
    rw [h1, h2]
    norm_num
    intro h
    simp at h

/-- `deque(maxlen=5).append`: append on the right, evicting from the left once
the size would exceed 5 (for inputs of length at most 5 the drop removes at
most the oldest entry). -/
def push5 (w : List Outcome) (o : Outcome) : List Outcome :=
  let w2 := w ++ [o]
  w2.drop (w2.length - 5)

/-- The state owned by the result-processing path: the keys of `self.results`
(the configured target names, in insertion order), the window contents per
name, and the pending items of `result_queue`. -/
structure AggState where
  names : List String
  windows : String → List Outcome
  queue : List Outcome

/-- Lines 337–343: `overall_status` starts "green" and becomes "red" (with
break) as soon as the window of some target has 2 or more failed pings. -/
def overall_of (ws : List (List Outcome)) : String :=
  if ws.any (fun tw => decide (failed_pings tw ≥ 2)) then "red" else "green"

/-- Line 345: `self.current_status = "Connected" if overall_status == "green"
else "Disconnected"`. -/
def current_of (ws : List (List Outcome)) : String :=
  if overall_of ws = "green" then "Connected" else "Disconnected"

/-- The values `process_results` publishes on a successful drain: the freshly
computed per-target classification and the overall/current statuses. -/
structure Published where
  cls : Classification
  overall : String
  current : String

/-- The state after one invocation together with what it published (`none`
when the queue was empty and the `queue.Empty` branch just passed). -/
structure StepOut where
  state : AggState
  published : Option Published

/-- One invocation of `process_results` (lines 285–364). `get_nowait` pops at
most one item; an item whose name is not a key of `self.results` raises a
`KeyError` that the `except queue.Empty` clause does not catch, so it escapes
(modelled as `Except.error` carrying the unknown name and the state at the
point of the raise: the item already popped, no window changed, and — since
the raise skips the `self.root.after` reschedule — the processing chain
stops). Otherwise the outcome is appended to the window of its target, the window
is classified, and the overall status is recomputed over all windows. -/
def process_results (s : AggState) : Except (String × AggState) StepOut :=
  match s.queue with
  | [] => Except.ok { state := s, published := none }
  | r :: rest =>
    if s.names.contains r.name then
      let w := push5 (s.windows r.name) r
      let windows2 : String → List Outcome := fun n => if n = r.name then w else s.windows n
      Except.ok
        { state := { names := s.names, windows := windows2, queue := rest },
          published := some
            { cls := classify w, overall := overall_of (s.names.map windows2),
              current := current_of (s.names.map windows2) } }
    else
      Except.error (r.name, { names := s.names, windows := s.windows, queue := rest })

/-- The aggregator state after an invocation, whether it returned normally or
raised. -/
def afterState : Except (String × AggState) StepOut → AggState
  | Except.ok out => out.state
  | Except.error e => e.2

/-- What an invocation published (`none` when it raised or the queue was
empty). -/
def pubOf : Except (String × AggState) StepOut → Option Published
  | Except.ok out => out.published
  | Except.error _ => none

/-- The condition of a window is `Disconnected` exactly when it holds at least two
failed pings; the Dead, Fast, Slow and NoData branches never produce it. -/
theorem classify_condition_disconnected_iff (rs : List Outcome) :
    (classify rs).condition = Condition.Disconnected ↔ failed_pings rs ≥ 2 := by
  by_cases h1 : failed_pings rs ≥ 2
  · simp [classify, h1]
  · by_cases h2 : presentDelays rs = []
    · simp [classify, h1, h2]
    · by_cases h3 : (presentDelays rs).sum / ((presentDelays rs).length : ℚ) < 200
      · simp [classify, h1, h2, h3]
      · by_cases h4 : 200 ≤ (presentDelays rs).sum / ((presentDelays rs).length : ℚ) ∧
            (presentDelays rs).sum / ((presentDelays rs).length : ℚ) ≤ 1500
        · simp [classify, h1, h2, h3, h4]
        · simp [classify, h1, h2, h3, h4]

/-- A concrete aggregator state: one configured target whose window is empty
and whose queued outcome is a Success with delay 2000 ms. -/
def deadTargetState : AggState :=
  { names := ["Internet"],
    windows := fun _ => [],
    queue := [sampleAt PStatus.success (some 2000)] }

/-- C3 counterexample: processing the 2000 ms Success yields a target whose
condition is Dead (aggregate delay 2000 > 1500), yet the published overall
status is "green"/"Connected" — the overall computation only counts targets
with at least two failures, so a Dead target does not make the system
Disconnected, contradicting the claim. -/
theorem C3_counterexample :
    (pubOf (process_results deadTargetState)).map (fun p => p.cls.condition) =
      some Condition.Dead ∧
    (pubOf (process_results deadTargetState)).map Published.overall = some "green" ∧
    (pubOf (process_results deadTargetState)).map Published.current = some "Connected" := by
  have hcls : (classify [sampleAt PStatus.success (some 2000)]).condition = Condition.Dead := by
    have h1 : failed_pings [sampleAt PStatus.success (some 2000)] = 0 := by decide
    have h2 : presentDelays [sampleAt PStatus.success (some 2000)] = [2000] := by decide
    unfold classify
    rw [h1, h2]
    norm_num
  refine ⟨?_, ?_, ?_⟩
  · rw [show (pubOf (process_results deadTargetState)).map (fun p => p.cls.condition) =
        some ((classify [sampleAt PStatus.success (some 2000)]).condition) from rfl, hcls]
  · rfl
  · rfl

/-- C3 amended: the overall status is "Connected" iff no window of a target has
two or more failures — equivalently, iff no condition of a target is
`Disconnected` — and "Disconnected" iff the window of some target does. Targets
whose condition is Dead (aggregate delay above 1500 ms with fewer than two
failures) do not affect the overall status. -/
theorem C3_overall_counts_only_failures (ws : List (List Outcome)) :
    (current_of ws = "Connected" ↔
      ∀ w ∈ ws, (classify w).condition ≠ Condition.Disconnected) ∧
    (current_of ws = "Disconnected" ↔
      ∃ w ∈ ws, (classify w).condition = Condition.Disconnected) := by
  have hiff : ∀ w, (classify w).condition = Condition.Disconnected ↔ failed_pings w ≥ 2 :=
    classify_condition_disconnected_iff
  unfold current_of overall_of
  by_cases h : ws.any (fun tw => decide (failed_pings tw ≥ 2))
  · rw [if_pos h]
    rw [List.any_eq_true] at h
    obtain ⟨w, hw, hge⟩ := h
    constructor
    · constructor
      · intro hred
        exact absurd hred (by decide)
      · intro hall
        exact absurd ((hiff w).mpr (of_decide_eq_true hge)) (hall w hw)
    · constructor
      · intro _
        exact ⟨w, hw, (hiff w).mpr (of_decide_eq_true hge)⟩
      · intro _
        rfl
  · rw [if_neg h]
    rw [List.any_eq_true] at h
    push_neg at h
    constructor
    · constructor
      · intro _ w hw hdis
        exact h w hw (decide_eq_true ((hiff w).mp hdis))
      · intro _
        rfl
    · constructor
      · intro hgreen
        exact absurd hgreen (by decide)
      · rintro ⟨w, hw, hdis⟩
        exact absurd (decide_eq_true ((hiff w).mp hdis)) (h w hw)

/-- Helper: draining an outcome whose name is a configured target appends it
to exactly the window of that target and publishes the recomputed statuses. -/
theorem process_results_ok_cons (s : AggState) (r : Outcome) (rest : List Outcome)
    (hq : s.queue = r :: rest) (hc : s.names.contains r.name = true) :
    process_results s = Except.ok
      { state := { names := s.names,
                   windows := fun n => if n = r.name then push5 (s.windows r.name) r
                                       else s.windows n,
                   queue := rest },
        published := some
          { cls := classify (push5 (s.windows r.name) r),
            overall := overall_of (s.names.map (fun n =>
              if n = r.name then push5 (s.windows r.name) r else s.windows n)),
            current := current_of (s.names.map (fun n =>
              if n = r.name then push5 (s.windows r.name) r else s.windows n)) } } := by
  simp only [process_results, hq, hc, if_true]

/-- Helper: draining an outcome whose name is not a configured target raises
(the popped item is lost, no window changes). -/
theorem process_results_err_cons (s : AggState) (r : Outcome) (rest : List Outcome)
    (hq : s.queue = r :: rest) (hc : s.names.contains r.name = false) :
    process_results s =
      Except.error (r.name, { names := s.names, windows := s.windows, queue := rest }) := by
  simp only [process_results, hq, hc, if_false]
  simp

/-- C5 counterexample: a window holding two failures and one Success with a
present delay of 100 ms has a nonempty list of present delays, yet the
computed `avg_delay` is absent — the mean is not published once
`failed_pings >= 2`, contradicting "independently of how many failures the
window contains". -/
theorem C5_counterexample :
    presentDelays [sampleAt PStatus.failed none, sampleAt PStatus.timeout none,
      sampleAt PStatus.success (some 100)] = [100] ∧
    (classify [sampleAt PStatus.failed none, sampleAt PStatus.timeout none,
      sampleAt PStatus.success (some 100)]).avg_delay = none := by
  constructor
  · decide
  · have h : failed_pings [sampleAt PStatus.failed none, sampleAt PStatus.timeout none,
        sampleAt PStatus.success (some 100)] ≥ 2 := by decide
    unfold classify
    rw [if_pos h]

/-- C5 amended: the computed `avg_delay` equals the arithmetic mean of the
present delays only when the window has fewer than 2 failures; with 2 or more
failures it is absent even if delays are present, and with no present delay it
is absent. -/
theorem C5_avg_gated_by_failures (rs : List Outcome) :
    (classify rs).avg_delay =
      if failed_pings rs ≥ 2 then none
      else if presentDelays rs = [] then none
      else some ((presentDelays rs).sum / ((presentDelays rs).length : ℚ)) := by
  by_cases h1 : failed_pings rs ≥ 2
  · simp [classify, h1]
  · by_cases h2 : presentDelays rs = []
    · simp [classify, h1, h2]
    · by_cases h3 : (presentDelays rs).sum / ((presentDelays rs).length : ℚ) < 200
      · simp [classify, h1, h2, h3]
      · by_cases h4 : 200 ≤ (presentDelays rs).sum / ((presentDelays rs).length : ℚ) ∧
            (presentDelays rs).sum / ((presentDelays rs).length : ℚ) ≤ 1500
        · simp [classify, h1, h2, h3, h4]
        · simp [classify, h1, h2, h3, h4]

/-- An outcome naming a target that is not among the configured ones. -/
def ghostOutcome : Outcome :=
  { name := "Ghost", ip := "1.2.3.4", status := PStatus.success, delay := some 10, timestamp := 0 }

/-- A concrete aggregator state whose queued outcome names an unknown target. -/
def ghostState : AggState :=
  { names := ["Internet", "WireGuard", "VoIP"],
    windows := fun _ => [],
    queue := [ghostOutcome] }

/-- Recognises an invocation that raised. -/
def isError {α β : Type} : Except α β → Bool
  | Except.error _ => true
  | Except.ok _ => false

/-- C7 counterexample: an outcome with the unknown target name "Ghost" makes
`process_results` raise a KeyError at `self.results[name]` — only
`queue.Empty` is caught, so the invocation errors instead of logging and
dropping, and the raise skips the `root.after` reschedule, stopping the
consumer loop. -/
theorem C7_counterexample :
    isError (process_results ghostState) = true ∧
    pubOf (process_results ghostState) = none := by
  constructor <;> rfl

/-- C7 amended: for every state whose next queued outcome names an unknown
target, `process_results` raises: the item is removed from the queue, no
window is changed, nothing is published, and the error escapes (the loop is
not protected against it). -/
theorem C7_unknown_name_raises (s : AggState) (r : Outcome) (rest : List Outcome)
    (hq : s.queue = r :: rest) (hc : s.names.contains r.name = false) :
    process_results s =
      Except.error (r.name, { names := s.names, windows := s.windows, queue := rest }) :=
  process_results_err_cons s r rest hq hc

/-- Witness for C7 at the concrete ghost state. -/
theorem C7_witness :
    process_results ghostState =
      Except.error ("Ghost",
        { names := ghostState.names, windows := ghostState.windows, queue := [] }) :=
  C7_unknown_name_raises ghostState ghostOutcome [] rfl (by decide)

/-- C10: each invocation of `process_results` removes at most one outcome
from the intake queue; on an empty queue the state is unchanged and nothing
is published, and on a drained outcome every window other than the one the
outcome names is left exactly as it was, while the named window (when the
name is configured) becomes the old window with the outcome appended. -/
theorem C10_frame (s : AggState) :
    (s.queue = [] → process_results s = Except.ok { state := s, published := none }) ∧
    (∀ r rest, s.queue = r :: rest →
      (afterState (process_results s)).queue = rest ∧
      (∀ n, n ≠ r.name → (afterState (process_results s)).windows n = s.windows n) ∧
      (s.names.contains r.name = true →
        (afterState (process_results s)).windows r.name = push5 (s.windows r.name) r)) := by
  constructor
  · intro hq
    unfold process_results
    rw [hq]
  · intro r rest hq
    by_cases hc : s.names.contains r.name = true
    · rw [process_results_ok_cons s r rest hq hc]
      refine ⟨rfl, ?_, ?_⟩
      · intro n hn
        show (if n = r.name then push5 (s.windows r.name) r else s.windows n) = s.windows n
        rw [if_neg hn]
      · intro _
        show (if r.name = r.name then push5 (s.windows r.name) r else s.windows r.name) =
          push5 (s.windows r.name) r
        rw [if_pos rfl]
    · rw [process_results_err_cons s r rest hq (by simpa using hc)]
      exact ⟨rfl, fun n _ => rfl, fun hcT => absurd hcT hc⟩

/-- Witness for C10 at a concrete state with one queued outcome for the
configured target "VoIP". -/
def demoOutcome : Outcome :=
  { name := "VoIP", ip := "10.60.0.4", status := PStatus.success, delay := some 30, timestamp := 1 }

/-- A concrete aggregator state used by the C10 witness. -/
def demoState : AggState :=
  { names := ["Internet", "WireGuard", "VoIP"],
    windows := fun _ => [],
    queue := [demoOutcome] }

/-- Witness for C10: on the demo state the queue is drained to empty, the
window of "Internet" is untouched and the window of "VoIP" gets the outcome. -/
theorem C10_witness :
    (afterState (process_results demoState)).queue = [] ∧
    (afterState (process_results demoState)).windows "Internet" =
      demoState.windows "Internet" ∧
    (afterState (process_results demoState)).windows "VoIP" =
      push5 (demoState.windows "VoIP") demoOutcome := by
  have h := (C10_frame demoState).2 demoOutcome [] rfl
  exact ⟨h.1, h.2.1 "Internet" (by decide), h.2.2 (by decide)⟩

/-- The notifications emitted by `connection_notification_loop`:
`on_status_change_trigger` ("Status changed to <status>"),
`on_disconnected_repeat` ("Still Disconnected"), and the
"All connections restored" notification. -/
inductive Event where
  | transition (status : String)
  | repeatDisc
  | recovery
deriving DecidableEq

/-- The bookkeeping of the notification loop: `self.pre_status` (initially
`None`, hence `Option String`) and `self.last_repeat_time`. -/
structure NotifState where
  pre : Option String
  lastRepeat : ℚ
deriving DecidableEq

/-- `self.repeat_interval = 10` (seconds). -/
def repeat_interval : ℚ := 10

/-- The if/elif block of one iteration of `connection_notification_loop`
(lines 368–376), with the observed `self.current_status` and the clock value
fixed for the iteration. First branch: on `current != pre` notify the
transition, set `pre := current`, reset the repeat clock. Second branch
(elif): while Disconnected and at least `repeat_interval` since the last
event, notify the repeat and reset the clock. Otherwise nothing. After this
block the loop body runs a separate `if` (lines 378–379) that emits
"All connections restored" when `pre == "Disconnected"` and
`current == "Connected"` — evaluated against the already-updated `pre`;
`notif_step` below composes the two. -/
def notif_branches (cur : String) (now : ℚ) (st : NotifState) : NotifState × List Event :=
  if st.pre ≠ some cur then
    ({ pre := some cur, lastRepeat := now }, [Event.transition cur])
  else if cur = "Disconnected" then
    if now - st.lastRepeat ≥ repeat_interval then
      ({ pre := st.pre, lastRepeat := now }, [Event.repeatDisc])
    else (st, [])
  else (st, [])

/-- The whole iteration: the if/elif block above, then the separate recovery
`if`, which reads the possibly-updated `pre_status`. -/
def notif_step (cur : String) (now : ℚ) (st : NotifState) : NotifState × List Event :=
  if (notif_branches cur now st).1.pre = some "Disconnected" ∧ cur = "Connected" then
    ((notif_branches cur now st).1, (notif_branches cur now st).2 ++ [Event.recovery])
  else notif_branches cur now st

/-- After the if/elif block, `pre_status` always equals the observed current
status: either the first branch just assigned it, or it was already equal. -/
theorem notif_branches_pre (cur : String) (now : ℚ) (st : NotifState) :
    (notif_branches cur now st).1.pre = some cur := by
  unfold notif_branches
  split_ifs with h1 h2 h3 <;> simp_all

/-- The recovery condition is evaluated after `pre_status` was updated, so it
never holds and the recovery branch is dead: the iteration result is exactly
that of the if/elif block. -/
theorem notif_step_eq_branches (cur : String) (now : ℚ) (st : NotifState) :
    notif_step cur now st = notif_branches cur now st := by
  have h : ¬ ((notif_branches cur now st).1.pre = some "Disconnected" ∧ cur = "Connected") := by
    rintro ⟨hd, hc⟩
    rw [notif_branches_pre cur now st, Option.some.injEq] at hd
    rw [hd] at hc
    exact absurd hc (by decide)
  unfold notif_step
  rw [if_neg h]

/-- C4: on every poll, if the current status differs from the previous one,
exactly the transition event is emitted, the previous status becomes the
current one and the repeat clock is reset; otherwise, while Disconnected with
at least `repeat_interval` elapsed, exactly the repeat event is emitted and
the clock is reset; otherwise nothing is emitted — so consecutive polls with
an unchanged status never produce a duplicate transition event. -/
theorem C4_notification_trichotomy (cur : String) (now : ℚ) (st : NotifState) :
    (st.pre ≠ some cur →
      notif_step cur now st =
        ({ pre := some cur, lastRepeat := now }, [Event.transition cur])) ∧
    (st.pre = some cur → cur = "Disconnected" → now - st.lastRepeat ≥ repeat_interval →
      notif_step cur now st = ({ pre := st.pre, lastRepeat := now }, [Event.repeatDisc])) ∧
    (st.pre = some cur → (cur ≠ "Disconnected" ∨ now - st.lastRepeat < repeat_interval) →
      notif_step cur now st = (st, [])) := by
  rw [notif_step_eq_branches cur now st]
  refine ⟨?_, ?_, ?_⟩
  · intro hne
    unfold notif_branches
    rw [if_pos hne]
  · intro heq hd hge
    unfold notif_branches
    rw [if_neg (by simp [heq]), if_pos hd, if_pos hge]
  · intro heq hrest
    unfold notif_branches
    rw [if_neg (by simp [heq])]
    rcases hrest with hnd | hlt
    · by_cases hd : cur = "Disconnected"
      · exact absurd hd hnd
      · rw [if_neg hd]
    · by_cases hd : cur = "Disconnected"
      · rw [if_pos hd, if_neg (by exact fun hge => absurd hlt (not_lt.mpr hge))]
      · rw [if_neg hd]

/-- Witness for C4: from previous "Connected" to current "Disconnected" at
time 3, the step emits exactly one transition event and resets the state. -/
theorem C4_witness :
    notif_step "Disconnected" 3 { pre := some "Connected", lastRepeat := 0 } =
      ({ pre := some "Disconnected", lastRepeat := 3 }, [Event.transition "Disconnected"]) :=
  (C4_notification_trichotomy "Disconnected" 3 { pre := some "Connected", lastRepeat := 0 }).1
    (by simp)

/-- True when the iteration emitted the "All connections restored"
notification. -/
def emitsRecovery : List Event → Bool
  | [] => false
  | Event.recovery :: _ => true
  | _ :: rest => emitsRecovery rest

/-- C8 (code bug): the recovery notification is never emitted on any poll:
the first branch updates `pre_status` to the current status before the
`pre_status == "Disconnected" and current_status == "Connected"` check runs,
so after the branches `pre` always equals `current` and the recovery
condition is unsatisfiable — in particular it is not emitted in the very
iteration that observes a Disconnected → Connected transition. -/
theorem C8_recovery_never_emitted (cur : String) (now : ℚ) (st : NotifState) :
    emitsRecovery (notif_step cur now st).2 = false := by
  rw [notif_step_eq_branches cur now st]
  unfold notif_branches
  split_ifs with h1 h2 h3 <;> rfl

/-- The fields of a completed `subprocess.run` used by the probe loop. The
output is kept as a character list so the regex scan can be modelled
positionally. -/
structure RunResult where
  returncode : Int
  stdout : List Char
  stderr : String
deriving DecidableEq

/-- What the `subprocess.run` call of one probe attempt did: returned a result,
raised `subprocess.TimeoutExpired`, or raised some other exception. -/
inductive ProbeEvent where
  | completed (r : RunResult)
  | timedOut
  | raised
deriving DecidableEq

/-- Numeric value of a run of decimal-digit characters. -/
def digitsVal (ds : List Char) : ℕ :=
  ds.foldl (fun a c => 10 * a + (c.toNat - 48)) 0

/-- The first regex alternative `time=([\d]+(?:\.\d+)?)` tried at the start
of `l`, case-insensitively (re.IGNORECASE lowers the letters; Python \d is
modelled as ASCII digits, which is what ping output contains). Returns the
float value of group 1 on success: greedy integer digits, then an optional
fractional part that itself requires at least one digit. -/
def matchTimeEq (l : List Char) : Option ℚ :=
  let low := l.map Char.toLower
  if low.take 5 = ['t', 'i', 'm', 'e', '='] then
    let rest := low.drop 5
    let ds := rest.takeWhile Char.isDigit
    if ds = [] then none
    else
      match rest.drop ds.length with
      | '.' :: r2 =>
        let fs := r2.takeWhile Char.isDigit
        if fs = [] then some (digitsVal ds)
        else some ((digitsVal ds : ℚ) + (digitsVal fs : ℚ) / ((10 : ℚ) ^ fs.length))
      | _ => some (digitsVal ds)
  else none

/-- The second regex alternative, the literal sub-millisecond marker
`time<1ms`, tried at the start of `l`, case-insensitively. -/
def matchSubMs (l : List Char) : Bool :=
  (l.map Char.toLower).take 8 = ['t', 'i', 'm', 'e', '<', '1', 'm', 's']

/-- `re.search` over the whole output: positions are scanned left to right
and at each position the alternatives are tried in order (`time=` digits
first, then `time<1ms`). `some (some v)` means the first alternative matched
with value `v`; `some none` means the sub-millisecond marker matched first;
`none` means no match anywhere. -/
def findPingMatch : List Char → Option (Option ℚ)
  | [] => none
  | c :: rest =>
    match matchTimeEq (c :: rest) with
    | some v => some (some v)
    | none =>
      if matchSubMs (c :: rest) then some none
      else findPingMatch rest

/-- `parse_ping_delay` (lines 264–280): on a `time<1ms` match the delay is
deliberately unparseable (`None`, the VPN-tunnel anomaly policy); on a
`time=` match the parsed float is returned (`float(...)` cannot fail on the
matched shape, so the ValueError branch is dead); with no match, `None`. -/
def parse_ping_delay (output : List Char) : Option ℚ :=
  match findPingMatch output with
  | none => none
  | some none => none
  | some (some v) => some v

/-- One iteration of the `try`/`except` body of `ping_target_continuously`
(lines 199–261). `prev` is the value the local variable `result` holds from
the last completed `subprocess.run`, or `none` on the first attempt. On a
completed run, exit code 0 yields a "success" outcome with the parsed delay
and any other exit code a "failed" outcome with no delay. Both `except`
handlers begin with `result.stderr.strip() if result.stderr else ...`: when
`result` was never assigned this raises `UnboundLocalError` inside the
handler, which no sibling clause catches, so it escapes the loop (modelled
as `Except.error`); otherwise the stale result is read and a "timeout" or
"error" outcome is queued. -/
def ping_target_once (name ip : String) (ts : ℚ) (prev : Option RunResult)
    (ev : ProbeEvent) : Except String (Outcome × Option RunResult) :=
  match ev with
  | ProbeEvent.completed r =>
    if r.returncode = 0 then
      Except.ok ({ name := name, ip := ip, status := PStatus.success,
                   delay := parse_ping_delay r.stdout, timestamp := ts }, some r)
    else
      Except.ok ({ name := name, ip := ip, status := PStatus.failed,
                   delay := none, timestamp := ts }, some r)
  | ProbeEvent.timedOut =>
    match prev with
    | none => Except.error "UnboundLocalError"
    | some r => Except.ok ({ name := name, ip := ip, status := PStatus.timeout,
                             delay := none, timestamp := ts }, some r)
  | ProbeEvent.raised =>
    match prev with
    | none => Except.error "UnboundLocalError"
    | some r => Except.ok ({ name := name, ip := ip, status := PStatus.error,
                             delay := none, timestamp := ts }, some r)

/-- A completed run used to exercise the non-first-iteration paths. -/
def someRun : RunResult := { returncode := 0, stdout := [], stderr := "" }

/-- C6 (evaluation at the failing input): if the very first probe attempt for
a target times out (or raises any other exception), the handler reads the
unbound local `result` and the resulting `UnboundLocalError` escapes the
probe loop instead of being captured as an outcome; once a run has completed,
the same events are captured as "timeout"/"error" outcomes. -/
theorem C6_first_attempt_handler_crashes :
    ping_target_once "Internet" "79.127.78.196" 0 none ProbeEvent.timedOut =
      Except.error "UnboundLocalError" ∧
    ping_target_once "Internet" "79.127.78.196" 0 none ProbeEvent.raised =
      Except.error "UnboundLocalError" ∧
    ping_target_once "Internet" "79.127.78.196" 0 (some someRun) ProbeEvent.timedOut =
      Except.ok ({ name := "Internet", ip := "79.127.78.196", status := PStatus.timeout,
                   delay := none, timestamp := 0 }, some someRun) :=
  ⟨rfl, rfl, rfl⟩

/-- The suffixes of a character list, longest first: the candidate match
positions of the scan. -/
def suffixList : List Char → List (List Char)
  | [] => [[]]
  | c :: rest => (c :: rest) :: suffixList rest

/-- True when `time=` followed by a digit occurs at some position. -/
def hasTimeEqMatch (l : List Char) : Bool :=
  (suffixList l).any (fun t => (matchTimeEq t).isSome)

/-- True when the sub-millisecond marker occurs at some position. -/
def hasSubMsMatch (l : List Char) : Bool :=
  (suffixList l).any matchSubMs

/-- Helper: if no position matches the `time=` alternative, the scan can only
fail or stop at the sub-millisecond marker. -/
theorem findPingMatch_of_no_timeEq (l : List Char) (ht : hasTimeEqMatch l = false) :
    findPingMatch l = none ∨ findPingMatch l = some none := by
  induction l with
  | nil => exact Or.inl rfl
  | cons c rest ih =>
    have hexp : hasTimeEqMatch (c :: rest) =
        ((matchTimeEq (c :: rest)).isSome || hasTimeEqMatch rest) := rfl
    rw [hexp] at ht
    cases hmt : matchTimeEq (c :: rest) with
    | some v =>
      rw [hmt] at ht
      simp at ht
    | none =>
      rw [hmt] at ht
      simp only [Option.isSome_none, Bool.false_or] at ht
      by_cases hms : matchSubMs (c :: rest) = true
      · right
        simp [findPingMatch, hmt, hms]
      · have heq : findPingMatch (c :: rest) = findPingMatch rest := by
          simp [findPingMatch, hmt, hms]
        rw [heq]
        exact ih ht

/-- C9 counterexample: the probe output "time=50 time<1ms" contains the
sub-millisecond marker, yet the parsed delay is 50, not absent — `re.search`
returns the leftmost match and the `time=50` alternative matches earlier. -/
theorem C9_counterexample :
    hasSubMsMatch ("time=50 time<1ms".toList) = true ∧
    parse_ping_delay ("time=50 time<1ms".toList) = some 50 := by
  constructor
  · decide
  · have h : parse_ping_delay ("time=50 time<1ms".toList) = some ((50 : ℕ) : ℚ) := rfl
    rw [h]
    norm_num

/-- C9 amended: for every probe output containing the sub-millisecond marker
`time<1ms` at some position but matching `time=<digits>` at none, the parsed
delay is absent (never zero), the outcome of a zero-exit probe over that
output keeps status "success" with an absent delay, and a window of three
such Success outcomes classifies NoData. -/
theorem C9_submillisecond_policy (out : List Char) (name ip errS : String) (ts : ℚ)
    (prev : Option RunResult)
    (hm : hasSubMsMatch out = true) (ht : hasTimeEqMatch out = false) :
    parse_ping_delay out = none ∧
    ping_target_once name ip ts prev
        (ProbeEvent.completed { returncode := 0, stdout := out, stderr := errS }) =
      Except.ok ({ name := name, ip := ip, status := PStatus.success,
                   delay := none, timestamp := ts },
        some { returncode := 0, stdout := out, stderr := errS }) ∧
    (classify [sampleAt PStatus.success none, sampleAt PStatus.success none,
      sampleAt PStatus.success none]).condition = Condition.NoData := by
  have hp : parse_ping_delay out = none := by
    rcases findPingMatch_of_no_timeEq out ht with h | h <;> simp [parse_ping_delay, h]
  refine ⟨hp, ?_, ?_⟩
  · simp [ping_target_once, hp]
  · have h1 : failed_pings [sampleAt PStatus.success none, sampleAt PStatus.success none,
        sampleAt PStatus.success none] = 0 := by decide
    have h2 : presentDelays [sampleAt PStatus.success none, sampleAt PStatus.success none,
        sampleAt PStatus.success none] = [] := by decide
    simp [classify, h1, h2]

/-- Witness for C9 at the concrete output "time<1ms". -/
theorem C9_witness :
    parse_ping_delay ("time<1ms".toList) = none ∧
    ping_target_once "Internet" "79.127.78.196" 0 none
        (ProbeEvent.completed { returncode := 0, stdout := "time<1ms".toList, stderr := "" }) =
      Except.ok ({ name := "Internet", ip := "79.127.78.196", status := PStatus.success,
                   delay := none, timestamp := 0 },
        some { returncode := 0, stdout := "time<1ms".toList, stderr := "" }) ∧
    (classify [sampleAt PStatus.success none, sampleAt PStatus.success none,
      sampleAt PStatus.success none]).condition = Condition.NoData :=
  C9_submillisecond_policy ("time<1ms".toList) "Internet" "79.127.78.196" "" 0 none
    (by decide) (by decide)

end Crm
